import Mathlib

/-!
Verification development for the rotating-triangle renderer
(src/rotating_triangle/main.cpp).

The program is a linear C++ main: GLFW/GLAD initialization, shader
loading/compilation/linking, geometry upload, then a render loop that
recomputes a Z-rotation transform from wall-clock time each frame.

We embed the program as a pure function from an environment of
external-library responses (initialization success flags, shader file
contents, driver compile/link verdicts and logs, the uniform location,
the per-frame clock, and the frame index at which the close signal
first reads true) to the ordered trace of external calls it makes plus
its process exit code.  The glm rotation matrix computation is embedded
separately as a pure matrix function, polymorphic over the scalar field
with cos, sin and sqrt passed explicitly so the definition stays
executable; theorems instantiate it at the real numbers.
-/

namespace RotatingTriangle

/-- The two shader stage kinds the program compiles. -/
inductive ShaderKind
  | vertex
  | fragment
deriving DecidableEq, Repr

/-- Draw primitive mode; the program only ever uses GL_TRIANGLES. -/
inductive DrawMode
  | triangles
deriving DecidableEq, Repr

/-- One observable external call (GLFW, GLAD, OpenGL, or console output)
made by main.  Constructors mirror the calls in source order;
`destroyWindow` is included although the program never emits it, so its
absence can be stated.  Matrix uploads record the rotation angle the
uploaded matrix was computed from (the matrix itself is a pure function
of that angle, embedded below as `frameTransform`). -/
inductive Event
  | glfwInitCall
  | windowHint (target : String) (value : String)
  | createWindow (width height : Nat) (title : String)
  | glfwTerminateCall
  | destroyWindow
  | makeContextCurrent
  | setFramebufferSizeCallback
  | gladLoadCall
  | openFile (path : String)
  | cerrFailedInit
  | cerrFailedWindow
  | cerrFailedGlad
  | cerrFailedOpen (path : String)
  | cerrCompileError (kind : ShaderKind) (log : String)
  | cerrLinkError (log : String)
  | createShader (kind : ShaderKind)
  | shaderSource (kind : ShaderKind) (src : String)
  | compileShader (kind : ShaderKind)
  | getShaderiv (kind : ShaderKind)
  | getShaderInfoLog (kind : ShaderKind) (bufSize : Nat)
  | createProgram
  | attachShader (kind : ShaderKind)
  | linkProgram
  | getProgramiv
  | getProgramInfoLog (bufSize : Nat)
  | deleteShader (kind : ShaderKind)
  | genVertexArrays
  | genBuffers
  | bindVertexArray
  | bindBuffer
  | bufferData (data : List ℚ)
  | vertexAttribPointer (idx size : Nat) (normalized : Bool) (stride offset : Nat)
  | enableVertexAttribArray (idx : Nat)
  | clearColorBuffer
  | useProgram
  | getTime
  | coutAngleRadians (angle : ℚ)
  | coutAngleDegrees (angle : ℚ)
  | getUniformLocation (name : String)
  | uniformMatrix4fv (loc : Int) (count : Nat) (transpose : Bool) (angle : ℚ)
  | drawArrays (mode : DrawMode) (first count : Nat)
  | swapBuffers
  | pollEvents
  | deleteVertexArrays
  | deleteBuffers
  | deleteProgram
deriving DecidableEq, Repr

/-- Responses of the external world (GLFW, GLAD, filesystem, GL driver,
wall clock).  `vertexFile`/`fragmentFile` are `none` when the file
cannot be opened, otherwise its full text.  `uniformLoc` is what
glGetUniformLocation returns for "transform" (-1 when absent).
`framesBeforeClose` is the number of times the loop condition reads the
close flag as unset; `time` gives the glfwGetTime reading of each
frame, in seconds. -/
structure Env where
  glfwInitOk : Bool
  createWindowOk : Bool
  gladOk : Bool
  vertexFile : Option String
  fragmentFile : Option String
  vertexCompileOk : Bool
  vertexLog : String
  fragmentCompileOk : Bool
  fragmentLog : String
  linkOk : Bool
  linkLog : String
  uniformLoc : Int
  framesBeforeClose : Nat
  time : Nat → ℚ

/-- Size of the `char infoLog[512]` buffer in main. -/
def infoLogBufSize : Nat := 512

/-- What glGetShaderInfoLog / glGetProgramInfoLog with a 512-byte buffer
deliver of the driver log: at most 511 characters (one byte is the null
terminator). -/
def truncLog (log : String) : String :=
  String.mk (log.data.take (infoLogBufSize - 1))

/-- Embedding of loadShaderSource (main.cpp lines 14-25): attempts to
open the file; on failure prints a diagnostic to cerr and returns the
empty string; otherwise returns the full contents.  The second
component is the list of external events of the call. -/
def loadShaderSource (filePath : String) (contents : Option String) :
    String × List Event :=
  match contents with
  | none => ("", [.openFile filePath, .cerrFailedOpen filePath])
  | some text => (text, [.openFile filePath])

/-- The compile sequence for one stage (create, source, compile, query
status; on failure fetch the capped log and print it). -/
def compileStage (kind : ShaderKind) (src : String) (ok : Bool) (log : String) :
    List Event :=
  [.createShader kind, .shaderSource kind src, .compileShader kind,
   .getShaderiv kind] ++
    (if ok then []
     else [.getShaderInfoLog kind infoLogBufSize,
           .cerrCompileError kind (truncLog log)])

/-- The link-error diagnostic events (query log, print it), emitted only
when linking failed. -/
def linkDiagnostics (ok : Bool) (log : String) : List Event :=
  if ok then []
  else [.getProgramInfoLog infoLogBufSize, .cerrLinkError (truncLog log)]

/-- The link sequence: create program, attach both stages, link, query
status, report on failure, then delete both shader objects.  The
deletes are unconditional in the source (main.cpp lines 116-117). -/
def linkProgramStage (ok : Bool) (log : String) : List Event :=
  [.createProgram, .attachShader .vertex, .attachShader .fragment,
   .linkProgram, .getProgramiv] ++
    linkDiagnostics ok log ++
    [.deleteShader .vertex, .deleteShader .fragment]

/-- The triangle vertex data (main.cpp lines 120-123): 3 vertices of 3
float components each, in normalized device coordinates. -/
def vertices : List ℚ :=
  [0, 1/2, 0,
   -1/2, -1/2, 0,
   1/2, -1/2, 0]

/-- sizeof(float) in bytes. -/
def floatSize : Nat := 4

/-- VAO/VBO setup and the one-time vertex upload and attribute layout
registration (main.cpp lines 126-138). -/
def geometrySetup : List Event :=
  [.genVertexArrays, .genBuffers, .bindVertexArray, .bindBuffer,
   .bufferData vertices,
   .vertexAttribPointer 0 3 false (3 * floatSize) 0,
   .enableVertexAttribArray 0]

/-- The per-frame rotation angle as a function of the glfwGetTime
reading: rotationAngle = (float)glfwGetTime(), the identity. -/
def rotationAngle (t : ℚ) : ℚ := t

/-- The per-frame degrees value printed for diagnostics:
rotationAngle * (180.0f / glm::pi<float>()).  Polymorphic in the scalar
with pi passed explicitly; instantiated at the reals in the theorems. -/
def rotationAngleDegrees {R : Type} [Field R] (pi : R) (t : R) : R :=
  t * (180 / pi)

/-- The rotation angle used by frame i of a run. -/
def frameAngle (env : Env) (i : Nat) : ℚ :=
  rotationAngle (env.time i)

/-- One iteration of the render loop (main.cpp lines 143-167), in
source order: clear, activate program, read the clock (the transform is
then computed purely from that reading), print the angle in radians and
degrees, look up the "transform" uniform by name, upload the matrix
(transpose = false, i.e. column-major), bind the VAO, draw 3 vertices
as triangles, swap buffers, poll events. -/
def renderFrame (env : Env) (i : Nat) : List Event :=
  [.clearColorBuffer, .useProgram, .getTime,
   .coutAngleRadians (frameAngle env i),
   .coutAngleDegrees (frameAngle env i),
   .getUniformLocation "transform",
   .uniformMatrix4fv env.uniformLoc 1 false (frameAngle env i),
   .bindVertexArray,
   .drawArrays .triangles 0 3,
   .swapBuffers, .pollEvents]

/-- The render loop: runs one frame per remaining iteration before the
close signal is observed. -/
def renderLoop (env : Env) (i : Nat) : Nat → List Event
  | 0 => []
  | n + 1 => renderFrame env i ++ renderLoop env (i + 1) n

/-- The loop state machine of the spec: exactly two states. -/
inductive LoopState
  | Running
  | Closed
deriving DecidableEq, Repr

/-- One transition of the loop state machine: Running leaves only on
the external close signal; Closed is terminal. -/
def loopStep (closeSignal : Bool) : LoopState → LoopState
  | .Running => if closeSignal then .Closed else .Running
  | .Closed => .Closed

/-- The external window-close signal as read at the i-th check of the
loop condition. -/
def closeSignal (env : Env) (i : Nat) : Bool :=
  decide (env.framesBeforeClose ≤ i)

/-- The machine state after the loop condition has been checked i
times. -/
def loopStateAt (env : Env) : Nat → LoopState
  | 0 => .Running
  | i + 1 => loopStep (closeSignal env i) (loopStateAt env i)

/-- Teardown after the loop (main.cpp lines 170-174). -/
def teardown : List Event :=
  [.deleteVertexArrays, .deleteBuffers, .deleteProgram, .glfwTerminateCall]

/-- The three window hints (OpenGL 3.3 core profile). -/
def windowHints : List Event :=
  [.windowHint "GLFW_CONTEXT_VERSION_MAJOR" "3",
   .windowHint "GLFW_CONTEXT_VERSION_MINOR" "3",
   .windowHint "GLFW_OPENGL_PROFILE" "GLFW_OPENGL_CORE_PROFILE"]

/-- Shader loading, compilation of both stages, and linking, in source
order (main.cpp lines 69-117). -/
def shaderPipelineSetup (env : Env) : List Event :=
  (loadShaderSource "shaders/vertex_shader.glsl" env.vertexFile).2 ++
  (loadShaderSource "shaders/fragment_shader.glsl" env.fragmentFile).2 ++
  compileStage .vertex (loadShaderSource "shaders/vertex_shader.glsl" env.vertexFile).1
    env.vertexCompileOk env.vertexLog ++
  compileStage .fragment (loadShaderSource "shaders/fragment_shader.glsl" env.fragmentFile).1
    env.fragmentCompileOk env.fragmentLog ++
  linkProgramStage env.linkOk env.linkLog

/-- Everything main does after successful initialization and before the
render loop. -/
def startupTrace (env : Env) : List Event :=
  [.glfwInitCall] ++ windowHints ++
    [.createWindow 800 600 "Rotating Triangle",
     .makeContextCurrent, .setFramebufferSizeCallback, .gladLoadCall] ++
    shaderPipelineSetup env ++ geometrySetup

/-- Embedding of main (main.cpp lines 33-177): the full trace of
external calls and the process exit code, as a function of the
environment. -/
def main (env : Env) : List Event × Int :=
  if env.glfwInitOk then
    if env.createWindowOk then
      if env.gladOk then
        (startupTrace env ++
           renderLoop env 0 env.framesBeforeClose ++ teardown, 0)
      else
        ([.glfwInitCall] ++ windowHints ++
           [.createWindow 800 600 "Rotating Triangle",
            .makeContextCurrent, .setFramebufferSizeCallback, .gladLoadCall,
            .cerrFailedGlad], -1)
    else
      ([.glfwInitCall] ++ windowHints ++
         [.createWindow 800 600 "Rotating Triangle", .cerrFailedWindow,
          .glfwTerminateCall], -1)
  else
    ([.glfwInitCall, .cerrFailedInit], -1)

/-- Semantics of glUniformMatrix4fv on the uniform store of the bound
program, per the OpenGL specification the program relies on: a location
of -1 makes the call a silent no-op; otherwise the named location is
updated. -/
def applyUniformMatrix4fv (loc : Int) (angle : ℚ)
    (uniforms : Int → Option ℚ) : Int → Option ℚ :=
  if loc = -1 then uniforms
  else fun l => if l = loc then some angle else uniforms l

/-- Recognizer for draw calls. -/
def isDrawArrays : Event → Bool
  | .drawArrays _ _ _ => true
  | _ => false

/-- Recognizer for vertex-data uploads. -/
def isBufferData : Event → Bool
  | .bufferData _ => true
  | _ => false

/-- Recognizer for console error diagnostics (cerr output). -/
def isConsoleError : Event → Bool
  | .cerrFailedInit => true
  | .cerrFailedWindow => true
  | .cerrFailedGlad => true
  | .cerrFailedOpen _ => true
  | .cerrCompileError _ _ => true
  | .cerrLinkError _ => true
  | _ => false

/-- Recognizer for the open attempt of a given file path. -/
def isOpenFile (p : String) : Event → Bool
  | .openFile q => p == q
  | _ => false

/-- The full console line printed for a compile failure: the fixed
prefix of the cerr statement followed by the retrieved log. -/
def compileErrorText (kind : ShaderKind) (log : String) : String :=
  (match kind with
   | .vertex => "Vertex Shader Compilation Error: "
   | .fragment => "Fragment Shader Compilation Error: ") ++ log

/-- A glm mat4 in glm layout: first index is the column, second the
row (column-major). -/
abbrev GlmMat4 (R : Type) : Type := Fin 4 → Fin 4 → R

/-- A glm vec3. -/
abbrev GlmVec3 (R : Type) : Type := Fin 3 → R

/-- glm::mat4(1.0f): the 4x4 identity matrix. -/
def glmMat4One {R : Type} [Field R] : GlmMat4 R :=
  fun c r => if c = r then 1 else 0

/-- glm::dot on vec3. -/
def glmDot3 {R : Type} [Field R] (a b : GlmVec3 R) : R :=
  a 0 * b 0 + a 1 * b 1 + a 2 * b 2

/-- glm::normalize on vec3, with sqrt passed explicitly. -/
def glmNormalize {R : Type} [Field R] (sqrt : R → R) (v : GlmVec3 R) :
    GlmVec3 R :=
  fun i => v i / sqrt (glmDot3 v v)

/-- Embedding of glm::rotate(mat4, angle, vec3) from
glm/gtc/matrix_transform: c = cos angle, s = sin angle, the axis is
normalized, the 3x3 axis-angle block is built, and the result columns
are combinations of the input columns (the fourth column passes
through).  cos, sin and sqrt are passed explicitly so the definition is
executable for any scalar field. -/
def glmRotate {R : Type} [Field R] (cos sin sqrt : R → R)
    (m : GlmMat4 R) (angle : R) (v : GlmVec3 R) : GlmMat4 R :=
  let c := cos angle
  let s := sin angle
  let axis := glmNormalize sqrt v
  let temp : GlmVec3 R := fun i => (1 - c) * axis i
  let rot : GlmMat4 R :=
    ![![c + temp 0 * axis 0, temp 0 * axis 1 + s * axis 2,
        temp 0 * axis 2 - s * axis 1, 0],
      ![temp 1 * axis 0 - s * axis 2, c + temp 1 * axis 1,
        temp 1 * axis 2 + s * axis 0, 0],
      ![temp 2 * axis 0 + s * axis 1, temp 2 * axis 1 - s * axis 0,
        c + temp 2 * axis 2, 0],
      ![0, 0, 0, 0]]
  ![fun row => m 0 row * rot 0 0 + m 1 row * rot 0 1 + m 2 row * rot 0 2,
    fun row => m 0 row * rot 1 0 + m 1 row * rot 1 1 + m 2 row * rot 1 2,
    fun row => m 0 row * rot 2 0 + m 1 row * rot 2 1 + m 2 row * rot 2 2,
    fun row => m 3 row]

/-- The per-frame transform of main.cpp lines 148-154:
glm::rotate(glm::mat4(1.0f), rotationAngle, glm::vec3(0, 0, 1)). -/
def frameTransform {R : Type} [Field R] (cos sin sqrt : R → R)
    (angle : R) : GlmMat4 R :=
  glmRotate cos sin sqrt glmMat4One angle ![0, 0, 1]

/-- A pure rotation about the Z axis by the given angle, written out in
column-major layout directly from the words of the spec (for comparison
with the transform the code computes). -/
def pureZRotationMatrix {R : Type} [Field R] (cos sin : R → R)
    (angle : R) : GlmMat4 R :=
  ![![cos angle, sin angle, 0, 0],
    ![-(sin angle), cos angle, 0, 0],
    ![0, 0, 1, 0],
    ![0, 0, 0, 1]]

/-- A fully successful environment: everything initializes, both
shaders compile, the program links, the uniform exists, one frame runs
before the close signal, and the clock reads a constant 0. -/
def envA : Env where
  glfwInitOk := true
  createWindowOk := true
  gladOk := true
  vertexFile := some "v"
  fragmentFile := some "f"
  vertexCompileOk := true
  vertexLog := ""
  fragmentCompileOk := true
  fragmentLog := ""
  linkOk := true
  linkLog := ""
  uniformLoc := 0
  framesBeforeClose := 1
  time := fun _ => 0

/-- envA with a failing link step and an immediately-closing window. -/
def envLinkFail : Env :=
  { envA with linkOk := false, linkLog := "link failed", framesBeforeClose := 0 }

/-- envA with window creation failing. -/
def envWindowFail : Env :=
  { envA with createWindowOk := false }

/-- envA with GLAD function-pointer loading failing. -/
def envGladFail : Env :=
  { envA with gladOk := false }

/-! Helper lemmas shared by the claim theorems. -/

/-- Under fully successful initialization, main runs startup, the loop
and teardown, and exits 0. -/
theorem main_ok (env : Env) (h1 : env.glfwInitOk = true)
    (h2 : env.createWindowOk = true) (h3 : env.gladOk = true) :
    main env =
      (startupTrace env ++ renderLoop env 0 env.framesBeforeClose ++ teardown,
       0) := by
  simp [main, h1, h2, h3]

/-- Every event of the render loop belongs to some frame. -/
theorem mem_renderLoop_mem_frame {env : Env} {e : Event} :
    ∀ {n i}, e ∈ renderLoop env i n → ∃ j, e ∈ renderFrame env j := by
  intro n
  induction n with
  | zero => intro i h; simp [renderLoop] at h
  | succ m ih =>
    intro i h
    rw [renderLoop] at h
    rcases List.mem_append.mp h with h | h
    · exact ⟨i, h⟩
    · exact ih h

/-- The render loop performs exactly one draw call per frame. -/
theorem countP_isDrawArrays_renderLoop (env : Env) :
    ∀ n i, (renderLoop env i n).countP isDrawArrays = n := by
  intro n
  induction n with
  | zero => intro i; simp [renderLoop]
  | succ m ih =>
    intro i
    simp [renderLoop, List.countP_append, ih (i + 1), renderFrame,
      isDrawArrays, List.countP_cons]

/-- The render loop never uploads vertex data. -/
theorem countP_isBufferData_renderLoop (env : Env) :
    ∀ n i, (renderLoop env i n).countP isBufferData = 0 := by
  intro n
  induction n with
  | zero => intro i; simp [renderLoop]
  | succ m ih =>
    intro i
    simp [renderLoop, List.countP_append, ih (i + 1), renderFrame,
      isBufferData, List.countP_cons]

/-- Startup uploads the vertex data exactly once. -/
theorem countP_isBufferData_startupTrace (env : Env) :
    (startupTrace env).countP isBufferData = 1 := by
  rcases env with ⟨g, w, gl, vf, ff, vo, vl, fo, fl, lo, ll, ul, fr, t⟩
  cases vf <;> cases ff <;> cases vo <;> cases fo <;> cases lo <;>
    simp [startupTrace, shaderPipelineSetup, loadShaderSource, compileStage,
      linkProgramStage, linkDiagnostics, geometrySetup, windowHints,
      isBufferData, List.countP_cons, List.countP_append]

/-- Startup performs no draw call. -/
theorem countP_isDrawArrays_startupTrace (env : Env) :
    (startupTrace env).countP isDrawArrays = 0 := by
  rcases env with ⟨g, w, gl, vf, ff, vo, vl, fo, fl, lo, ll, ul, fr, t⟩
  cases vf <;> cases ff <;> cases vo <;> cases fo <;> cases lo <;>
    simp [startupTrace, shaderPipelineSetup, loadShaderSource, compileStage,
      linkProgramStage, linkDiagnostics, geometrySetup, windowHints,
      isDrawArrays, List.countP_cons, List.countP_append]

/-- The log delivered through the 512-byte buffer has at most 512
characters. -/
theorem truncLog_length_le (log : String) : (truncLog log).length ≤ 512 := by
  have h : (truncLog log).length = (log.data.take (infoLogBufSize - 1)).length :=
    rfl
  rw [h]
  exact le_trans (List.length_take_le _ _) (by norm_num [infoLogBufSize])

/-- The loop state machine is in Running exactly until the close signal
has been read as set. -/
theorem loopStateAt_running_iff (env : Env) :
    ∀ i, loopStateAt env i = .Running ↔ i ≤ env.framesBeforeClose := by
  intro i
  induction i with
  | zero => simp [loopStateAt]
  | succ m ih =>
    rw [loopStateAt]
    rcases Nat.lt_trichotomy m env.framesBeforeClose with h | h | h
    · have hc : closeSignal env m = false := by
        simp only [closeSignal, decide_eq_false_iff_not]
        omega
      have hr : loopStateAt env m = .Running := ih.mpr (le_of_lt h)
      rw [hc, hr]
      simp [loopStep]
      omega
    · have hc : closeSignal env m = true := by simp [closeSignal, h]
      have hr : loopStateAt env m = .Running := ih.mpr (le_of_eq h)
      rw [hc, hr]
      simp [loopStep]
      omega
    · have hr : loopStateAt env m = .Closed := by
        cases hv : loopStateAt env m
        · exact absurd (ih.mp hv) (by omega)
        · rfl
      rw [hr]
      cases closeSignal env m <;> simp [loopStep] <;> omega

end RotatingTriangle


namespace RotatingTriangle

/-- A compile error diagnostic message is never the empty string. -/
theorem compileErrorText_ne_empty (k : ShaderKind) (log : String) :
    compileErrorText k log ≠ "" := by
  intro h
  have h2 := congrArg String.data h
  cases k <;> simp [compileErrorText] at h2

/-- No frame of the render loop emits a console diagnostic. -/
theorem not_consoleError_mem_renderFrame (env : Env) (i : Nat) {e : Event}
    (he : e ∈ renderFrame env i) : isConsoleError e = false := by
  simp only [renderFrame, List.mem_cons, List.not_mem_nil, or_false] at he
  rcases he with h | h | h | h | h | h | h | h | h | h | h <;>
    (subst h; rfl)

/-- The render loop emits no compile-error diagnostic. -/
theorem cerrCompileError_not_mem_renderLoop (env : Env) (k : ShaderKind)
    (log : String) {n i : Nat} :
    Event.cerrCompileError k log ∉ renderLoop env i n := by
  intro h
  obtain ⟨j, hj⟩ := mem_renderLoop_mem_frame h
  exact absurd (not_consoleError_mem_renderFrame env j hj) (by simp [isConsoleError])

end RotatingTriangle

namespace RotatingTriangle

/-! The claim theorems. -/

/-- C1: for every frame, the rotation angle is the identity function of
the elapsed-time reading (f = id), the derived degrees value equals
t * 180 / pi, the per-frame angle is monotonically increasing whenever
the wall clock is, and the angle of frame i is recomputed purely from
the clock reading of that frame (no accumulated drift), which is also
the angle carried by the uniform upload of that frame. -/
theorem C1_frameClock_identity (env : Env) (hmono : Monotone env.time) :
    (∀ t : ℚ, rotationAngle t = t) ∧
    (∀ t : ℝ, rotationAngleDegrees Real.pi t = t * 180 / Real.pi) ∧
    Monotone (frameAngle env) ∧
    (∀ i, frameAngle env i = env.time i) ∧
    (∀ i, Event.uniformMatrix4fv env.uniformLoc 1 false (env.time i) ∈
      renderFrame env i) ∧
    (∀ env₂ : Env, ∀ i j, env.time i = env₂.time j →
      frameAngle env i = frameAngle env₂ j) := by
  refine ⟨fun t => rfl,
    fun t => by rw [rotationAngleDegrees, mul_div_assoc], ?_, fun i => rfl,
    ?_, ?_⟩
  · intro a b hab
    simpa [frameAngle, rotationAngle] using hmono hab
  · intro i
    simp [renderFrame, frameAngle, rotationAngle]
  · intro env₂ i j h
    simp [frameAngle, rotationAngle, h]

/-- C1 witness: the claim instantiated at the concrete environment envA
with its constant (hence monotone) clock. -/
theorem C1_frameClock_identity_witness :
    Monotone envA.time ∧ frameAngle envA 0 = envA.time 0 :=
  ⟨monotone_const, (C1_frameClock_identity envA monotone_const).2.2.2.1 0⟩

/-- C2: the per-frame transform, computed by glm::rotate from the
identity matrix about the axis (0,0,1), is exactly a pure rotation
about the Z axis by the rotation angle; at angle 0 it is the 4x4
identity matrix; and each frame uploads the matrix computed from that
frame's rotation angle. -/
theorem C2_transform_pure_z_rotation (θ : ℝ) :
    frameTransform Real.cos Real.sin Real.sqrt θ =
      pureZRotationMatrix Real.cos Real.sin θ ∧
    frameTransform (R := ℝ) Real.cos Real.sin Real.sqrt 0 = glmMat4One ∧
    (∀ env : Env, ∀ i,
      Event.uniformMatrix4fv env.uniformLoc 1 false (rotationAngle (env.time i)) ∈
        renderFrame env i) := by
  refine ⟨?_, ?_, ?_⟩
  · funext col row
    fin_cases col <;> fin_cases row <;>
      simp [frameTransform, glmRotate, glmNormalize, glmDot3, glmMat4One,
        pureZRotationMatrix, Matrix.vecHead, Matrix.vecTail]
  · funext col row
    fin_cases col <;> fin_cases row <;>
      simp [frameTransform, glmRotate, glmNormalize, glmDot3, glmMat4One,
        Matrix.vecHead, Matrix.vecTail]
  · intro env i
    simp [renderFrame, frameAngle, rotationAngle]

/-- C3 counterexample: in a run where linking fails, both intermediate
stage handles are still deleted, so the release does not happen only in
the case of successful linking. -/
theorem C3_link_failure_still_deletes :
    envLinkFail.linkOk = false ∧
    Event.deleteShader .vertex ∈ (main envLinkFail).1 ∧
    Event.deleteShader .fragment ∈ (main envLinkFail).1 := by
  refine ⟨rfl, ?_, ?_⟩ <;>
    simp [main, envLinkFail, envA, startupTrace, shaderPipelineSetup,
      loadShaderSource, compileStage, linkProgramStage, linkDiagnostics,
      geometrySetup, renderLoop, teardown, windowHints]

/-- C3 (amended): in every fully initialized run, the two intermediate
shader stage handles are deleted immediately after the link step and
its status check, regardless of whether linking succeeded. -/
theorem C3_stages_deleted_after_link (env : Env)
    (h1 : env.glfwInitOk = true) (h2 : env.createWindowOk = true)
    (h3 : env.gladOk = true) :
    ∃ pre : List Event,
      Event.linkProgram ∈ pre ∧
      (main env).1 =
        pre ++ [Event.deleteShader .vertex, Event.deleteShader .fragment] ++
          geometrySetup ++ renderLoop env 0 env.framesBeforeClose ++
          teardown := by
  refine ⟨[Event.glfwInitCall] ++ windowHints ++
      [.createWindow 800 600 "Rotating Triangle", .makeContextCurrent,
       .setFramebufferSizeCallback, .gladLoadCall] ++
      (loadShaderSource "shaders/vertex_shader.glsl" env.vertexFile).2 ++
      (loadShaderSource "shaders/fragment_shader.glsl" env.fragmentFile).2 ++
      compileStage .vertex
        (loadShaderSource "shaders/vertex_shader.glsl" env.vertexFile).1
        env.vertexCompileOk env.vertexLog ++
      compileStage .fragment
        (loadShaderSource "shaders/fragment_shader.glsl" env.fragmentFile).1
        env.fragmentCompileOk env.fragmentLog ++
      [.createProgram, .attachShader .vertex, .attachShader .fragment,
       .linkProgram, .getProgramiv] ++
      linkDiagnostics env.linkOk env.linkLog, ?_, ?_⟩
  · simp
  · simp [main, h1, h2, h3, startupTrace, shaderPipelineSetup,
      linkProgramStage]

/-- C3 witness: the amended claim instantiated at envA. -/
theorem C3_stages_deleted_after_link_witness :
    envA.glfwInitOk = true ∧
    ∃ pre : List Event,
      Event.linkProgram ∈ pre ∧
      (main envA).1 =
        pre ++ [Event.deleteShader .vertex, Event.deleteShader .fragment] ++
          geometrySetup ++ renderLoop envA 0 envA.framesBeforeClose ++
          teardown :=
  ⟨rfl, C3_stages_deleted_after_link envA rfl rfl rfl⟩

end RotatingTriangle

namespace RotatingTriangle

/-- C4: loadShaderSource returns the full text of the file; when the
file cannot be opened it returns the empty string and emits exactly one
diagnostic; an empty file is returned as empty contents with no
diagnostic; and the file is opened exactly once per call (no retry). -/
theorem C4_loadShaderSource_contract (path text : String) :
    loadShaderSource path none =
      ("", [.openFile path, .cerrFailedOpen path]) ∧
    loadShaderSource path (some text) = (text, [.openFile path]) ∧
    loadShaderSource path (some "") = ("", [.openFile path]) ∧
    (loadShaderSource path none).2.countP isConsoleError = 1 ∧
    (loadShaderSource path (some text)).2.countP isConsoleError = 0 ∧
    (loadShaderSource path none).2.countP (isOpenFile path) = 1 ∧
    (loadShaderSource path (some text)).2.countP (isOpenFile path) = 1 := by
  refine ⟨rfl, rfl, rfl, ?_, ?_, ?_, ?_⟩ <;>
    simp [loadShaderSource, isConsoleError, isOpenFile, List.countP_cons]

/-- C5: when a stage fails to compile, the run surfaces a diagnostic
for that stage whose log portion is capped at 512 characters and whose
console message is non-empty, and the program does not abort (the link
step still runs and the exit code is still 0); when a stage compiles
successfully no compile diagnostic for that stage is emitted. -/
theorem C5_compiler_diagnostics (env : Env)
    (h1 : env.glfwInitOk = true) (h2 : env.createWindowOk = true)
    (h3 : env.gladOk = true) :
    (env.vertexCompileOk = false →
      Event.cerrCompileError .vertex (truncLog env.vertexLog) ∈
        (main env).1) ∧
    (env.fragmentCompileOk = false →
      Event.cerrCompileError .fragment (truncLog env.fragmentLog) ∈
        (main env).1) ∧
    (∀ log, (truncLog log).length ≤ 512) ∧
    (∀ k log, compileErrorText k (truncLog log) ≠ "") ∧
    (main env).2 = 0 ∧
    Event.linkProgram ∈ (main env).1 ∧
    (env.vertexCompileOk = true →
      ∀ log, Event.cerrCompileError .vertex log ∉ (main env).1) ∧
    (env.fragmentCompileOk = true →
      ∀ log, Event.cerrCompileError .fragment log ∉ (main env).1) := by
  rw [main_ok env h1 h2 h3]
  refine ⟨?_, ?_, fun log => truncLog_length_le log,
    fun k log => compileErrorText_ne_empty k (truncLog log), rfl, ?_, ?_, ?_⟩
  · intro hv
    simp [startupTrace, shaderPipelineSetup, compileStage, hv]
  · intro hf
    simp [startupTrace, shaderPipelineSetup, compileStage, hf]
  · simp [startupTrace, shaderPipelineSetup, linkProgramStage]
  · intro hv log
    simp only [List.mem_append]
    rintro ((hm | hm) | hm)
    · rcases env with ⟨g, w, gl, vf, ff, vo, vl, fo, fl, lo, ll, ul, fr, t⟩
      cases hv
      cases vf <;> cases ff <;> cases fo <;> cases lo <;>
        simp [startupTrace, shaderPipelineSetup, loadShaderSource,
          compileStage, linkProgramStage, linkDiagnostics, geometrySetup,
          windowHints] at hm
    · exact cerrCompileError_not_mem_renderLoop env _ _ hm
    · simp [teardown] at hm
  · intro hf log
    simp only [List.mem_append]
    rintro ((hm | hm) | hm)
    · rcases env with ⟨g, w, gl, vf, ff, vo, vl, fo, fl, lo, ll, ul, fr, t⟩
      cases hf
      cases vf <;> cases ff <;> cases vo <;> cases lo <;>
        simp [startupTrace, shaderPipelineSetup, loadShaderSource,
          compileStage, linkProgramStage, linkDiagnostics, geometrySetup,
          windowHints] at hm
    · exact cerrCompileError_not_mem_renderLoop env _ _ hm
    · simp [teardown] at hm

/-- C5 witness: the claim instantiated at envA. -/
theorem C5_compiler_diagnostics_witness :
    (envA.glfwInitOk = true ∧ envA.createWindowOk = true ∧
      envA.gladOk = true) ∧
    (main envA).2 = 0 :=
  ⟨⟨rfl, rfl, rfl⟩,
    (C5_compiler_diagnostics envA rfl rfl rfl).2.2.2.2.1⟩

/-- C6: the process exit code is 0 exactly when GLFW initialization,
window creation and GLAD loading all succeed (and the run then ends by
the window closing), and -1 exactly when one of those three fails;
compile, link or uniform outcomes never affect it. -/
theorem C6_exit_codes (env : Env) :
    (main env).2 =
      (if env.glfwInitOk then
        if env.createWindowOk then if env.gladOk then 0 else -1 else -1
       else -1) ∧
    ((main env).2 = 0 ↔
      env.glfwInitOk = true ∧ env.createWindowOk = true ∧
        env.gladOk = true) ∧
    ((main env).2 = -1 ↔
      ¬(env.glfwInitOk = true ∧ env.createWindowOk = true ∧
        env.gladOk = true)) := by
  cases h1 : env.glfwInitOk <;> cases h2 : env.createWindowOk <;>
    cases h3 : env.gladOk <;> simp [main, h1, h2, h3]

end RotatingTriangle

namespace RotatingTriangle

/-- C7: while running, every loop iteration performs, in order: clear
the color target, activate the pipeline, read the clock and compute the
rotation transform from it, print the diagnostics, look up and upload
the uniform, bind the geometry, issue the draw call, present the frame,
and process events; the loop state machine has exactly the states
Running and Closed, Running transitions to Closed only on the external
close signal, Closed is terminal, the machine stays in Running exactly
until the close signal is read, and once closed the trace proceeds to
teardown. -/
theorem C7_render_loop_protocol (env : Env)
    (h1 : env.glfwInitOk = true) (h2 : env.createWindowOk = true)
    (h3 : env.gladOk = true) :
    (∀ i, renderFrame env i =
      [.clearColorBuffer, .useProgram, .getTime,
       .coutAngleRadians (frameAngle env i),
       .coutAngleDegrees (frameAngle env i),
       .getUniformLocation "transform",
       .uniformMatrix4fv env.uniformLoc 1 false (frameAngle env i),
       .bindVertexArray, .drawArrays .triangles 0 3,
       .swapBuffers, .pollEvents]) ∧
    (∀ s : LoopState, s = .Running ∨ s = .Closed) ∧
    loopStep false .Running = .Running ∧
    loopStep true .Running = .Closed ∧
    (∀ b, loopStep b .Closed = .Closed) ∧
    (∀ i, loopStateAt env i = .Running ↔ i ≤ env.framesBeforeClose) ∧
    (main env).1 =
      startupTrace env ++ renderLoop env 0 env.framesBeforeClose ++
        teardown := by
  refine ⟨fun i => rfl, ?_, rfl, rfl, fun b => rfl,
    loopStateAt_running_iff env, ?_⟩
  · intro s
    cases s
    · exact Or.inl rfl
    · exact Or.inr rfl
  · rw [main_ok env h1 h2 h3]

/-- C7 witness: the claim instantiated at envA. -/
theorem C7_render_loop_protocol_witness :
    (envA.glfwInitOk = true ∧ envA.createWindowOk = true ∧
      envA.gladOk = true) ∧
    (loopStateAt envA 1 = .Running ↔ 1 ≤ envA.framesBeforeClose) :=
  ⟨⟨rfl, rfl, rfl⟩,
    (C7_render_loop_protocol envA rfl rfl rfl).2.2.2.2.2.1 1⟩

/-- C8: the vertex data is exactly 9 rational components (3 vertices of
3 components), fixed by definition and never mutated; a run uploads
vertex data exactly once, with the layout registered at slot 0, size 3,
stride of 3 floats (12 bytes) and offset 0; and every draw call of the
run draws exactly 3 vertices as triangles, one call per frame. -/
theorem C8_geometry_invariants (env : Env)
    (h1 : env.glfwInitOk = true) (h2 : env.createWindowOk = true)
    (h3 : env.gladOk = true) :
    vertices.length = 9 ∧
    (main env).1.countP isBufferData = 1 ∧
    (∀ d, Event.bufferData d ∈ (main env).1 → d = vertices) ∧
    Event.vertexAttribPointer 0 3 false (3 * floatSize) 0 ∈ (main env).1 ∧
    (∀ a b c d e, Event.vertexAttribPointer a b c d e ∈ (main env).1 →
      a = 0 ∧ b = 3 ∧ c = false ∧ d = 3 * floatSize ∧ e = 0) ∧
    (∀ m f k, Event.drawArrays m f k ∈ (main env).1 →
      m = .triangles ∧ f = 0 ∧ k = 3) ∧
    (main env).1.countP isDrawArrays = env.framesBeforeClose := by
  rw [main_ok env h1 h2 h3]
  refine ⟨rfl, ?_, ?_, ?_, ?_, ?_, ?_⟩
  · simp [List.countP_append, countP_isBufferData_startupTrace,
      countP_isBufferData_renderLoop, teardown, isBufferData,
      List.countP_cons]
  · intro d
    simp only [List.mem_append]
    rintro ((hm | hm) | hm)
    · rcases env with ⟨g, w, gl, vf, ff, vo, vl, fo, fl, lo, ll, ul, fr, t⟩
      cases vf <;> cases ff <;> cases vo <;> cases fo <;> cases lo <;>
        simp [startupTrace, shaderPipelineSetup, loadShaderSource,
          compileStage, linkProgramStage, linkDiagnostics, geometrySetup,
          windowHints] at hm <;> exact hm
    · obtain ⟨j, hj⟩ := mem_renderLoop_mem_frame hm
      simp [renderFrame] at hj
    · simp [teardown] at hm
  · simp [startupTrace, geometrySetup]
  · intro a b c d e
    simp only [List.mem_append]
    rintro ((hm | hm) | hm)
    · rcases env with ⟨g, w, gl, vf, ff, vo, vl, fo, fl, lo, ll, ul, fr, t⟩
      cases vf <;> cases ff <;> cases vo <;> cases fo <;> cases lo <;>
        simp [startupTrace, shaderPipelineSetup, loadShaderSource,
          compileStage, linkProgramStage, linkDiagnostics, geometrySetup,
          windowHints] at hm <;> simp [hm]
    · obtain ⟨j, hj⟩ := mem_renderLoop_mem_frame hm
      simp [renderFrame] at hj
    · simp [teardown] at hm
  · intro m f k
    simp only [List.mem_append]
    rintro ((hm | hm) | hm)
    · rcases env with ⟨g, w, gl, vf, ff, vo, vl, fo, fl, lo, ll, ul, fr, t⟩
      cases vf <;> cases ff <;> cases vo <;> cases fo <;> cases lo <;>
        simp [startupTrace, shaderPipelineSetup, loadShaderSource,
          compileStage, linkProgramStage, linkDiagnostics, geometrySetup,
          windowHints] at hm
    · obtain ⟨j, hj⟩ := mem_renderLoop_mem_frame hm
      simp only [renderFrame, List.mem_cons, List.not_mem_nil, or_false] at hj
      rcases hj with h | h | h | h | h | h | h | h | h | h | h <;>
        simp_all
    · simp [teardown] at hm
  · simp [List.countP_append, countP_isDrawArrays_startupTrace,
      countP_isDrawArrays_renderLoop, teardown, isDrawArrays,
      List.countP_cons]

/-- C8 witness: the claim instantiated at envA. -/
theorem C8_geometry_invariants_witness :
    (envA.glfwInitOk = true ∧ envA.createWindowOk = true ∧
      envA.gladOk = true) ∧
    (main envA).1.countP isDrawArrays = envA.framesBeforeClose :=
  ⟨⟨rfl, rfl, rfl⟩, (C8_geometry_invariants envA rfl rfl rfl).2.2.2.2.2.2⟩

/-- C9: every frame looks up the uniform named "transform" on the
pipeline and immediately uploads the 4x4 matrix with transpose = false
(column-major); when the lookup reports the name absent (location -1),
applying the upload to the uniform store leaves it unchanged (a silent
skip), no console error is emitted by any frame, and the loop and exit
code are unaffected by the location value. -/
theorem C9_uniform_lookup_and_silent_skip (env : Env)
    (h1 : env.glfwInitOk = true) (h2 : env.createWindowOk = true)
    (h3 : env.gladOk = true) :
    (∀ i, ∃ pre post, renderFrame env i =
      pre ++ [Event.getUniformLocation "transform",
              Event.uniformMatrix4fv env.uniformLoc 1 false
                (frameAngle env i)] ++ post) ∧
    (env.uniformLoc = -1 → ∀ angle st,
      applyUniformMatrix4fv env.uniformLoc angle st = st) ∧
    (∀ i e, e ∈ renderFrame env i → isConsoleError e = false) ∧
    (∀ loc : Int,
      (main { env with uniformLoc := loc }).2 = 0 ∧
      (main { env with uniformLoc := loc }).1.countP isDrawArrays =
        env.framesBeforeClose) := by
  refine ⟨?_, ?_, fun i e he => not_consoleError_mem_renderFrame env i he, ?_⟩
  · intro i
    exact ⟨[.clearColorBuffer, .useProgram, .getTime,
            .coutAngleRadians (frameAngle env i),
            .coutAngleDegrees (frameAngle env i)],
           [.bindVertexArray, .drawArrays .triangles 0 3,
            .swapBuffers, .pollEvents], rfl⟩
  · intro hloc angle st
    simp [applyUniformMatrix4fv, hloc]
  · intro loc
    rw [main_ok { env with uniformLoc := loc } h1 h2 h3]
    refine ⟨rfl, ?_⟩
    simp [List.countP_append, countP_isDrawArrays_startupTrace,
      countP_isDrawArrays_renderLoop, teardown, isDrawArrays,
      List.countP_cons]

/-- C9 witness: the claim instantiated at envA. -/
theorem C9_uniform_lookup_and_silent_skip_witness :
    (envA.glfwInitOk = true ∧ envA.createWindowOk = true ∧
      envA.gladOk = true) ∧
    (main { envA with uniformLoc := -1 }).2 = 0 :=
  ⟨⟨rfl, rfl, rfl⟩,
    ((C9_uniform_lookup_and_silent_skip envA rfl rfl rfl).2.2.2 (-1)).1⟩

/-- C10: the startup failure paths clean up asymmetrically: when window
creation fails, GLFW is terminated before main returns -1; when GLAD
loading fails, main returns -1 without terminating GLFW and without
destroying the already-created window. -/
theorem C10_asymmetric_startup_cleanup (env : Env)
    (h1 : env.glfwInitOk = true) :
    (env.createWindowOk = false →
      (main env).1 =
        [.glfwInitCall] ++ windowHints ++
          [.createWindow 800 600 "Rotating Triangle", .cerrFailedWindow,
           .glfwTerminateCall] ∧
      Event.glfwTerminateCall ∈ (main env).1 ∧ (main env).2 = -1) ∧
    (env.createWindowOk = true → env.gladOk = false →
      Event.glfwTerminateCall ∉ (main env).1 ∧
      Event.destroyWindow ∉ (main env).1 ∧ (main env).2 = -1) := by
  constructor
  · intro h2
    refine ⟨?_, ?_, ?_⟩ <;> simp [main, h1, h2, windowHints]
  · intro h2 h3
    refine ⟨?_, ?_, ?_⟩ <;> simp [main, h1, h2, h3, windowHints]

/-- C10 witness: the claim instantiated at the two concrete failing
environments. -/
theorem C10_asymmetric_startup_cleanup_witness :
    envWindowFail.glfwInitOk = true ∧
    Event.glfwTerminateCall ∈ (main envWindowFail).1 ∧
    Event.glfwTerminateCall ∉ (main envGladFail).1 :=
  ⟨rfl,
   ((C10_asymmetric_startup_cleanup envWindowFail rfl).1 rfl).2.1,
   ((C10_asymmetric_startup_cleanup envGladFail rfl).2 rfl rfl).1⟩

end RotatingTriangle
